import Mathlib

/-!
Verification development for the logistics-controller demo-session service.

The definitions below are a shallow embedding of the Python source:
  * `src/server/web/rest/demos.py` — the REST layer (`setup_auth_from_request`,
    `create_demo`, `get_demo`, `delete_demo`, `demo_login`, `deauthenticate`,
    `load_admin_data`);
  * `src/server/web/__init__.py` — the app-level `exception_handler`.

Collaborating modules of the repository that are not present under `src/`
(`server/services/demos.py`, `server/services/users.py`, `server/web/utils.py`,
`server/utils.py`, `server/exceptions.py`) are modelled from the spec; each
such definition carries a doc comment starting with `Modelled from the spec:`.
-/

namespace LogisticsWizard

/-- The exception taxonomy.  The first five constructors embed the classes of
`server/exceptions.py` that `demos.py` imports or the spec names
(`TokenException`, `ResourceDoesNotExistException`,
`UnprocessableEntityException`, `AuthenticationException`, `APIException`);
these are all `APIException`s for the purposes of the app-level handler.
`aggregationTimeout` exists only so that the spec's `AggregationTimeout`
claims can be stated: no code path of the repository raises it.
`pythonError` embeds plain Python runtime errors (`AttributeError`,
`TypeError`, `IndexError`), which are not `APIException`s. -/
inductive Err where
  | tokenException (msg : String)
  | resourceDoesNotExist (msg : String)
  | unprocessableEntity (msg : String)
  | authenticationException (msg : String)
  | apiError (msg : String) (internalDetails : String)
  | aggregationTimeout
  | pythonError (msg : String)
deriving DecidableEq, Repr

/-- Whether the exception is an `APIException` subclass: `exception_handler`
in `src/server/web/__init__.py` passes those through unchanged and wraps
everything else. -/
def Err.isAPIException : Err → Bool
  | .pythonError _ => false
  | .aggregationTimeout => false
  | _ => true

/-- `unicode(e)` / `str(e)`: the message text used as `internal_details`
when an exception is wrapped. -/
def Err.pyStr : Err → String
  | .tokenException m => m
  | .resourceDoesNotExist m => m
  | .unprocessableEntity m => m
  | .authenticationException m => m
  | .apiError m d => m ++ ": " ++ d
  | .aggregationTimeout => "aggregation timeout"
  | .pythonError m => m

/-- `exception_handler` from `src/server/web/__init__.py` (lines 57-74):
a non-`APIException` is replaced by `APIException(u'Server Error',
internal_details=unicode(e))`; an `APIException` is returned as-is. -/
def exception_handler (e : Err) : Err :=
  if e.isAPIException then e else .apiError "Server Error" e.pyStr

/-- Route-level composition: a handler outcome passed through
`exception_handler` on the error path (the Flask app registers
`exception_handler` for every `Exception`). -/
def handle {α : Type} : Except Err α → Except Err α
  | .ok a => .ok a
  | .error e => .error (exception_handler e)

/-- The payload carried by an auth token.  `demo_login` builds it from
`user_service.login(guid, user_id)` (which returns the demo guid, the user id
and the backend credential `loopback_token`) and then sets the `exp` field;
spec section 3 lists the same fields for `AuthToken`
(demoGuid, userId, downstreamCredential, expiresAt). -/
structure AuthData where
  demoGuid : String
  userId : String
  loopback_token : String
  exp : Nat
deriving DecidableEq, Repr

/-- A token encoding as transported on the wire: either a signed payload or
an arbitrary non-token string.  Equality of `TokenEnc` values models Python
string equality of the raw encodings. -/
inductive TokenEnc where
  | signed (payload : AuthData) (sig : Nat)
  | malformed (s : String)
deriving DecidableEq, Repr

/-- Modelled from the spec: the Token Codec's signature (`web_utils.py` is
absent from src/).  Spec section 4.2: the signature uses a process-wide
secret and is tamper-evident; the exact hash is irrelevant to the claims, so
the payload dependence is abstracted through the `exp` field. -/
def sign (secret : Nat) (d : AuthData) : Nat :=
  secret + d.demoGuid.length + d.userId.length + d.loopback_token.length

/-- Modelled from the spec: `web_utils.tokenize` — produce a signed encoding
embedding the `AuthToken` fields (spec section 4.2 `issue`). -/
def tokenize (secret : Nat) (d : AuthData) : TokenEnc :=
  .signed d (sign secret d)

/-- Modelled from the spec: `web_utils.detokenize` — fails with
`TokenException` if the signature does not verify or the encoding is
malformed; it does not check expiry or session existence
(spec section 4.2 `decode`). -/
def detokenize (secret : Nat) : TokenEnc → Except Err AuthData
  | .signed d s =>
      if s = sign secret d then .ok d
      else .error (.tokenException "signature verification failed")
  | .malformed _ => .error (.tokenException "malformed token")

/-- The per-request `g` object.  `auth = none` means the `auth` attribute was
never assigned on `g` (reading it raises `AttributeError`); `auth = some
Option.none` means `g.auth` was assigned the value `None`; `auth = some (some
d)` means `g.auth` holds the decoded auth data `d`. -/
structure GObj where
  auth : Option (Option AuthData)
deriving DecidableEq, Repr

/-- `setup_auth_from_request` from `src/server/web/rest/demos.py`
(lines 22-32), registered as a `before_request` hook.  `reqToken` is the
result of `web_utils.get_token_from_request()` (`None` when the request
carries no token).  When the token is absent the code never assigns
`g.auth`; when `detokenize` raises one of the caught exception classes the
code assigns `g.auth = None`; otherwise it stores the decoded data. -/
def setup_auth_from_request (secret : Nat) (reqToken : Option TokenEnc) : GObj :=
  match reqToken with
  | none => { auth := none }
  | some t =>
      match detokenize secret t with
      | .ok d => { auth := some (some d) }
      | .error _ => { auth := some none }

theorem detokenize_tokenize (secret : Nat) (d : AuthData) :
    detokenize secret (tokenize secret d) = .ok d := by
  simp [detokenize, tokenize]

/-- A role record, as serialized by the service layer (the integration test
`test_demo_create_success` reads fields `id`, `name`, `created`,
`modified`). -/
structure Role where
  id : String
  name : String
  created : String
  modified : String
deriving DecidableEq, Repr

/-- A demo user record (fields `id`, `demoId`, `username`, `email`, `roles`,
per the REST docstrings and the integration tests). -/
structure User where
  id : String
  demoId : String
  username : String
  email : String
  roles : List Role
deriving DecidableEq, Repr

/-- A demo session record (fields `id`, `guid`, `createdAt`, `users`, per the
REST docstrings in `src/server/web/rest/demos.py`). -/
structure DemoSession where
  id : String
  guid : String
  createdAt : String
  users : List User
deriving DecidableEq, Repr

/-- Modelled from the spec: the Session Store state (`server/services/demos.py`
is absent from src/).  Spec section 4.1: a mapping from demo guid to demo
session state; `nextId` drives identity generation. -/
structure Store where
  sessions : List DemoSession
  nextId : Nat
deriving DecidableEq, Repr

/-- Look up a session by guid (first match). -/
def Store.findByGuid (st : Store) (guid : String) : Option DemoSession :=
  st.sessions.find? (fun s => s.guid == guid)

/-- Modelled from the spec: guid generation — globally unique per store,
derived from the identity counter (spec section 4.1 `createSession`). -/
def genGuid (n : Nat) : String :=
  "guid-" ++ toString n

/-- Modelled from the spec: the seed role created for every new session —
exactly one role named `supplychainmanager` (spec sections 3 and 4.1). -/
def seedRole (guid : String) : Role :=
  { id := "role-" ++ guid
    name := "supplychainmanager"
    created := "2015-11-05T22:00:51"
    modified := "2015-11-05T22:00:51" }

/-- Modelled from the spec: the seed user created for every new session, its
username/email derived deterministically from the guid, carrying exactly the
seed role (spec section 4.1 `createSession`). -/
def seedUser (demoId guid : String) : User :=
  { id := "user-" ++ guid
    demoId := demoId
    username := "Supply Chain Manager (" ++ guid ++ ")"
    email := "chris." ++ guid ++ "@acme.com"
    roles := [seedRole guid] }

/-- Modelled from the spec: `demo_service.create_demo` behind the REST
`create_demo` route (`src/server/web/rest/demos.py` lines 35-52).  Spec
section 4.1 `createSession`: generates a fresh guid and provisions one seed
user with exactly one `supplychainmanager` role; returns the new store and
the fully populated session. -/
def create_demo (st : Store) : Store × DemoSession :=
  let id := toString st.nextId
  let guid := genGuid st.nextId
  let session : DemoSession :=
    { id := id, guid := guid, createdAt := "2015-11-05T22:00:51"
      users := [seedUser id guid] }
  ({ sessions := session :: st.sessions, nextId := st.nextId + 1 }, session)

/-- Modelled from the spec: `demo_service.get_demo_by_guid` behind the REST
`get_demo` route.  Spec section 4.1 `getSessionByGuid`: fails with
`ResourceNotFound` if no session has that guid (the integration test
`test_demo_retrieve_invalid_input` pins `ResourceDoesNotExistException`). -/
def get_demo_by_guid (st : Store) (guid : String) : Except Err DemoSession :=
  match st.findByGuid guid with
  | some s => .ok s
  | none => .error (.resourceDoesNotExist ("demo not found: " ++ guid))

/-- Modelled from the spec: `demo_service.delete_demo_by_guid` behind the
REST `delete_demo` route.  Spec section 4.1 `deleteSessionByGuid`: fails with
`ResourceNotFound` if absent, otherwise removes the session and all its users
(cascading); a second delete on the same guid deterministically fails with
`ResourceNotFound` (the integration test `test_demo_delete_invalid_input`
pins `ResourceDoesNotExistException`). -/
def delete_demo_by_guid (st : Store) (guid : String) : Except Err Store :=
  match st.findByGuid guid with
  | some _ => .ok { st with sessions := st.sessions.filter (fun s => s.guid != guid) }
  | none => .error (.resourceDoesNotExist ("demo not found: " ++ guid))

theorem find_filter_ne_guid (l : List DemoSession) (g : String) :
    (l.filter (fun s => s.guid != g)).find? (fun s => s.guid == g) = none := by
  rw [List.find?_eq_none]
  intro x hx
  have hmem := List.mem_filter.mp hx
  simpa [bne] using hmem.2

/-- Python `data.get(key)` on a JSON object represented as an association
list: `None` when the key is absent. -/
def pyGet (data : List (String × String)) (key : String) : Option String :=
  (data.find? (fun p => p.1 == key)).map (fun p => p.2)

/-- Modelled from the spec: `web_utils.check_null_input` (`web_utils.py` is
absent from src/).  Spec section 4.3: validates that required inputs are
present and fails with `UnprocessableEntity` if one is missing, independent of
whether the referenced ids exist. -/
def check_null_input (inputs : List (Option String × String)) : Except Err Unit :=
  match inputs.find? (fun p => p.1.isNone) with
  | some p => .error (.unprocessableEntity ("Required input is missing: " ++ p.2))
  | none => .ok ()

/-- Modelled from the spec: the downstream credential issued by the backend's
`authenticateUser(demoGuid, userId)` call for a user that exists in the
session (spec section 6); this is the `loopback_token` the tests read from
`user_service.login`'s result. -/
def erpCredential (guid userId : String) : String :=
  "loopback-" ++ guid ++ "-" ++ userId

/-- Modelled from the spec: `user_service.login(guid, user_id)`
(`server/services/users.py` is absent from src/).  Spec section 4.3 `login`:
resolves the session, fails with `ResourceNotFound` if the session or the
userId within it does not exist, exchanges the identity for a downstream
credential.  Its result carries the demo guid, the user id and the
`loopback_token` credential; `exp` is not yet set (`demo_login` sets it). -/
def user_login (st : Store) (guid userId : String) : Except Err AuthData :=
  match st.findByGuid guid with
  | none => .error (.resourceDoesNotExist ("demo not found: " ++ guid))
  | some s =>
      match s.users.find? (fun u => u.id == userId) with
      | none => .error (.resourceDoesNotExist ("user not found: " ++ userId))
      | some u =>
          .ok { demoGuid := guid, userId := u.id
                loopback_token := erpCredential guid u.id, exp := 0 }

/-- `exp` assigned by `demo_login`: `datetime.utcnow() + timedelta(days=14)`,
with the current time taken as instant 0 (seconds). -/
def FOURTEEN_DAYS : Nat := 14 * 24 * 60 * 60

/-- The auth payload issued by a successful `demo_login` for the pair
(guid, userId). -/
def authRecord (guid userId : String) : AuthData :=
  { demoGuid := guid, userId := userId
    loopback_token := erpCredential guid userId, exp := FOURTEEN_DAYS }

/-- The response of a successful `demo_login`: the JSON body token, the
status code, and the `auth_token` cookie set on the response. -/
structure LoginResponse where
  token : TokenEnc
  status : Nat
  cookie_auth_token : Option TokenEnc
deriving DecidableEq, Repr

/-- `demo_login` from `src/server/web/rest/demos.py` (lines 149-176).
`body` is `request.get_json()`'s result (`none` when the request body is
absent or not a JSON object).  Mirrors the source line by line:
`data.get('userId')` on a `None` body raises `AttributeError` before
`check_null_input` runs; then `check_null_input`; then
`user_service.login`; then `exp` is set and the payload tokenized.
The second component of the result is the trace of Session Store /
downstream calls actually made. -/
def demo_login (secret : Nat) (st : Store) (guid : String)
    (body : Option (List (String × String))) :
    Except Err LoginResponse × List String :=
  match body with
  | none =>
      (.error (.pythonError "AttributeError: NoneType object has no attribute get"), [])
  | some data =>
      let user_id := pyGet data "userId"
      match check_null_input [(user_id, "username when logging in"),
                              (some guid, "demo guid when logging in")] with
      | .error e => (.error e, [])
      | .ok _ =>
          match user_login st guid (user_id.getD "") with
          | .error e => (.error e, ["user_service.login"])
          | .ok a =>
              let auth := { a with exp := FOURTEEN_DAYS }
              let token := tokenize secret auth
              (.ok { token := token, status := 200, cookie_auth_token := some token },
               ["user_service.login"])

/-- The observable outcome of the `deauthenticate` route: which downstream
credential (if any) was revoked via `user_service.logout`, and the HTTP
status. -/
structure LogoutOutcome where
  revokedCredential : Option String
  status : Nat
deriving DecidableEq, Repr

/-- `deauthenticate` from `src/server/web/rest/demos.py` (lines 179-190).
`headerToken` is `web_utils.get_token_from_request()`'s result for this
request, `pathToken` the `<string:token>` path segment, and `g` the request
globals as left by `setup_auth_from_request`.  The source compares the raw
encodings (`request_token == token`) and only then reads
`g.auth['loopback_token']`: reading an unassigned `g.auth` raises
`AttributeError`, and subscripting a `None` value raises `TypeError`.
When the tokens differ nothing is revoked and the route returns 204. -/
def deauthenticate (headerToken : Option TokenEnc) (pathToken : TokenEnc)
    (g : GObj) : Except Err LogoutOutcome :=
  if headerToken = some pathToken then
    match g.auth with
    | none => .error (.pythonError "AttributeError: g object has no attribute auth")
    | some none => .error (.pythonError "TypeError: NoneType object is not subscriptable")
    | some (some d) => .ok { revokedCredential := some d.loopback_token, status := 204 }
  else
    .ok { revokedCredential := none, status := 204 }

/-- The full request pipeline for the logout route: the `before_request`
hook `setup_auth_from_request` followed by `deauthenticate`. -/
def logout_request (secret : Nat) (headerToken : Option TokenEnc)
    (pathToken : TokenEnc) : Except Err LogoutOutcome :=
  deauthenticate headerToken pathToken (setup_auth_from_request secret headerToken)

/-- The failure (if any) of the worker at index `i` of the pool's task
list. -/
def failAt {α : Type} (outs : List (Except Err α)) (i : Nat) : Option Err :=
  match outs.get? i with
  | some (.error e) => some e
  | _ => none

/-- The failures of a pool run in the order the scheduler observes the
workers complete: `sched` lists the task indices in completion order. -/
def observedFailures {α : Type} (outs : List (Except Err α)) (sched : List Nat) :
    List Err :=
  sched.filterMap (failAt outs)

/-- Collect every worker's result, or the first failure: `Pool.map` cannot
return a partial list — it either yields one result per task, in task order,
or re-raises a worker's exception in the parent. -/
def collectResults {α : Type} : List (Except Err α) → Except Err (List α)
  | [] => .ok []
  | .error e :: _ => .error e
  | .ok a :: rest =>
      match collectResults rest with
      | .ok as => .ok (a :: as)
      | .error e => .error e

/-- `pool.map(async_helper, erp_calls)` over the already-determined worker
outcomes `outs`, with completion order `sched` (`async_helper` from
`server/utils.py`, absent from src/, applies each service function to the
shared credential; spec section 4.4: each call is given the same credential
and runs isolated from the others).  If the scheduler observes a failure it
raises that first observed failure; otherwise it returns all results in task
order.  Note `Pool.map`'s result order is the task (input) order, never the
completion order. -/
def pool_map {α : Type} (outs : List (Except Err α)) (sched : List Nat) :
    Except Err (List α) :=
  match observedFailures outs sched with
  | e :: _ => .error e
  | [] => collectResults outs

/-- The keyed result of the admin aggregation, as serialized by
`load_admin_data`: `results[0]` under key `shipments`, `results[1]` under
key `distribution-centers`, `results[2]` under key `retailers`. -/
structure AdminData (α : Type) where
  shipments : α
  distribution_centers : α
  retailers : α
deriving DecidableEq, Repr

/-- `load_admin_data` from `src/server/web/rest/demos.py` (lines 193-228),
with the route decorator stripped (see `admin_route`).  `fs`, `fd`, `fr`
embed `shipment_service.get_shipments`,
`distribution_center_service.get_distribution_centers` and
`retailer_service.get_retailers`: each maps the `loopback_token` credential
to its result sequence (the JSON dumps/loads round trip on the wire strings
is the identity on the model level).  The body reads
`g.auth['loopback_token']`, fans the three calls out on a worker pool with
completion order `sched`, wraps any pool failure in
`APIException('Error retrieving admin data view', internal_details=str(e))`,
and on success returns the three sequences keyed positionally. -/
def load_admin_data {α : Type} (g : GObj)
    (fs fd fr : String → Except Err α) (sched : List Nat) :
    Except Err (AdminData α) :=
  match g.auth with
  | none => .error (.pythonError "AttributeError: g object has no attribute auth")
  | some none => .error (.pythonError "TypeError: NoneType object is not subscriptable")
  | some (some auth) =>
      let loopback_token := auth.loopback_token
      let outs := [fs loopback_token, fd loopback_token, fr loopback_token]
      match pool_map outs sched with
      | .error e => .error (.apiError "Error retrieving admin data view" e.pyStr)
      | .ok results =>
          match results with
          | [s, d, r] => .ok { shipments := s, distribution_centers := d, retailers := r }
          | _ => .error (.pythonError "IndexError: list index out of range")

/-- Modelled from the spec: the `web_utils.logged_in` route decorator
(`web_utils.py` is absent from src/).  Spec sections 3, 4.3 and 7: a token
is valid iff it decoded and the current time is before `expiresAt`; an
expired (or absent) authentication yields `AuthenticationFailed` at the
point the protected operation is attempted. -/
def logged_in (now : Nat) (g : GObj) : Except Err AuthData :=
  match g.auth with
  | some (some d) =>
      if now < d.exp then .ok d
      else .error (.authenticationException "token expired")
  | _ => .error (.authenticationException "not logged in")

/-- The `/admin` route as registered: `@web_utils.logged_in` guarding
`load_admin_data`. -/
def admin_route {α : Type} (now : Nat) (g : GObj)
    (fs fd fr : String → Except Err α) (sched : List Nat) :
    Except Err (AdminData α) :=
  match logged_in now g with
  | .error e => .error e
  | .ok _ => load_admin_data g fs fd fr sched

/-- The wall-clock span of a pool run that joins all workers: the workers
run concurrently, so the join completes when the slowest worker does. -/
def maxDuration {α : Type} (outs : List (Except Err α × Nat)) : Nat :=
  outs.foldr (fun p m => max p.2 m) 0

/-- `load_admin_data` with each downstream call given a duration, and a
caller-supplied timeout alongside.  The source provides no way to bound the
aggregation: `pool.map(async_helper, erp_calls)` is called with no timeout
argument, so `timeoutMs` is accepted solely to state the spec's timeout
claim and is ignored by the body, exactly as the code ignores any deadline.
The second component is the elapsed time of a run that joins its workers. -/
def load_admin_data_timed {α : Type} (g : GObj)
    (fs fd fr : String → Except Err α × Nat) (sched : List Nat)
    (timeoutMs : Nat) : Except Err (AdminData α) × Nat :=
  let _ := timeoutMs
  match g.auth with
  | none => (.error (.pythonError "AttributeError: g object has no attribute auth"), 0)
  | some none => (.error (.pythonError "TypeError: NoneType object is not subscriptable"), 0)
  | some (some auth) =>
      let loopback_token := auth.loopback_token
      let outs := [fs loopback_token, fd loopback_token, fr loopback_token]
      let elapsed := maxDuration outs
      match pool_map (outs.map Prod.fst) sched with
      | .error e => (.error (.apiError "Error retrieving admin data view" e.pyStr), elapsed)
      | .ok results =>
          match results with
          | [s, d, r] =>
              (.ok { shipments := s, distribution_centers := d, retailers := r }, elapsed)
          | _ => (.error (.pythonError "IndexError: list index out of range"), elapsed)

/-- Whether an outcome is an error at all. -/
def isErr {α : Type} : Except Err α → Bool
  | .error _ => true
  | .ok _ => false

/-- Whether an admin-aggregation outcome is the single wrapped aggregate
failure `APIException('Error retrieving admin data view', ...)`. -/
def isAggFailure {α : Type} : Except Err (AdminData α) → Bool
  | .error (.apiError m _) => m == "Error retrieving admin data view"
  | _ => false

/-- Whether an outcome is a `TokenException` (the spec's `TokenInvalid`). -/
def isTokenInvalid {α : Type} : Except Err α → Bool
  | .error (.tokenException _) => true
  | _ => false

/-- Whether an outcome is the spec's `AggregationTimeout` failure. -/
def isAggTimeout {α : Type} : Except Err α → Bool
  | .error .aggregationTimeout => true
  | _ => false

/-- Whether an outcome is an `UnprocessableEntity` failure. -/
def isUnprocessable {α : Type} : Except Err α → Bool
  | .error (.unprocessableEntity _) => true
  | _ => false

/-! Concrete fixtures shared by the witnesses. -/

/-- The empty session store. -/
def store0 : Store := { sessions := [], nextId := 0 }

/-- The store after one `create_demo` on the empty store. -/
def store1 : Store := (create_demo store0).1

/-- The session produced by that `create_demo`. -/
def session1 : DemoSession := (create_demo store0).2

/-- A concrete authenticated payload. -/
def demoAuth : AuthData := authRecord "guid-0" "user-guid-0"

/-- A downstream read call that succeeds with the one-element sequence `[n]`. -/
def okCall (n : Nat) : String → Except Err (List Nat) := fun _ => .ok [n]

/-- A downstream read call rejected by the backend. -/
def failCall : String → Except Err (List Nat) := fun _ =>
  .error (.authenticationException "invalid credential")

/-- A timed downstream read call: succeeds with `[n]` after `dur` time
units. -/
def timedOk (n dur : Nat) : String → Except Err (List Nat) × Nat := fun _ =>
  (.ok [n], dur)

/-! Helper lemmas about the pool. -/

theorem failAt_all_ok {α : Type} (s d r : α) (i : Nat) :
    failAt [Except.ok s, Except.ok d, Except.ok r] i = none := by
  match i with
  | 0 => rfl
  | 1 => rfl
  | 2 => rfl
  | n + 3 => rfl

theorem observedFailures_all_ok {α : Type} (s d r : α) (sched : List Nat) :
    observedFailures [Except.ok s, Except.ok d, Except.ok r] sched = [] := by
  induction sched with
  | nil => rfl
  | cons i rest ih =>
      simp only [observedFailures, List.filterMap_cons, failAt_all_ok]
      simpa [observedFailures] using ih

theorem collectResults_three_err {α : Type} (x y z : Except Err α)
    (h : isErr x = true ∨ isErr y = true ∨ isErr z = true) :
    ∃ e, collectResults [x, y, z] = .error e := by
  cases x <;> cases y <;> cases z <;> simp_all [collectResults, isErr]

theorem pool_map_all_ok {α : Type} (s d r : α) (sched : List Nat) :
    pool_map [Except.ok s, Except.ok d, Except.ok r] sched = .ok [s, d, r] := by
  simp [pool_map, observedFailures_all_ok, collectResults]

theorem pool_map_some_err {α : Type} (x y z : Except Err α) (sched : List Nat)
    (h : isErr x = true ∨ isErr y = true ∨ isErr z = true) :
    ∃ e, pool_map [x, y, z] sched = .error e := by
  unfold pool_map
  cases hof : observedFailures [x, y, z] sched with
  | cons e tl => exact ⟨e, rfl⟩
  | nil =>
      obtain ⟨e, he⟩ := collectResults_three_err x y z h
      exact ⟨e, he⟩

/-- C1: if at least one of the three bound downstream calls of
`load_admin_data` (shipments, distribution centers, retailers) fails, then
for every completion order the whole operation fails with the single
`APIException('Error retrieving admin data view', ...)` wrapping the
underlying cause, so the caller receives no partial result mixing successful
and failed branches. -/
theorem C1_admin_fail_fast {α : Type} (auth : AuthData)
    (fs fd fr : String → Except Err α) (sched : List Nat)
    (h : isErr (fs auth.loopback_token) = true ∨
         isErr (fd auth.loopback_token) = true ∨
         isErr (fr auth.loopback_token) = true) :
    isAggFailure (load_admin_data { auth := some (some auth) } fs fd fr sched) = true := by
  obtain ⟨e, he⟩ := pool_map_some_err (fs auth.loopback_token) (fd auth.loopback_token)
    (fr auth.loopback_token) sched h
  simp [load_admin_data, he, isAggFailure]

theorem C1_admin_fail_fast_witness :
    isErr (failCall demoAuth.loopback_token) = true ∧
    isAggFailure (load_admin_data { auth := some (some demoAuth) }
      failCall (okCall 2) (okCall 3) [0, 1, 2]) = true :=
  ⟨rfl, C1_admin_fail_fast demoAuth failCall (okCall 2) (okCall 3) [0, 1, 2] (Or.inl rfl)⟩

/-- C2: on success, the result of `load_admin_data` depends only on the
three individual call results, not on the completion order of the concurrent
calls (any two completion orders give the same mapping), and the keyed
result carries exactly the three requested keys, each key's sequence taken
unchanged from its own call (`shipments` from the shipments call,
`distribution-centers` from the distribution-centers call, `retailers` from
the retailers call). -/
theorem C2_admin_order_independent {α : Type} (auth : AuthData)
    (fs fd fr : String → Except Err α) (sched₁ sched₂ : List Nat) (s d r : α)
    (hs : fs auth.loopback_token = .ok s)
    (hd : fd auth.loopback_token = .ok d)
    (hr : fr auth.loopback_token = .ok r) :
    load_admin_data { auth := some (some auth) } fs fd fr sched₁ =
      load_admin_data { auth := some (some auth) } fs fd fr sched₂ ∧
    load_admin_data { auth := some (some auth) } fs fd fr sched₁ =
      .ok { shipments := s, distribution_centers := d, retailers := r } := by
  have key : ∀ sched : List Nat,
      load_admin_data { auth := some (some auth) } fs fd fr sched =
        .ok { shipments := s, distribution_centers := d, retailers := r } := by
    intro sched
    simp [load_admin_data, hs, hd, hr, pool_map_all_ok]
  exact ⟨(key sched₁).trans (key sched₂).symm, key sched₁⟩

theorem C2_admin_order_independent_witness :
    okCall 1 demoAuth.loopback_token = .ok [1] ∧
    (load_admin_data { auth := some (some demoAuth) }
        (okCall 1) (okCall 2) (okCall 3) [0, 1, 2] =
      load_admin_data { auth := some (some demoAuth) }
        (okCall 1) (okCall 2) (okCall 3) [2, 1, 0] ∧
    load_admin_data { auth := some (some demoAuth) }
        (okCall 1) (okCall 2) (okCall 3) [0, 1, 2] =
      .ok { shipments := [1], distribution_centers := [2], retailers := [3] }) :=
  ⟨rfl, C2_admin_order_independent demoAuth (okCall 1) (okCall 2) (okCall 3)
    [0, 1, 2] [2, 1, 0] [1] [2] [3] rfl rfl rfl⟩

/-- C3 counterexample: the aggregation is not bounded by a caller-supplied
timeout.  With a timeout of 1 time unit and three successful calls each
taking 5 units, the run completes after 5 units (the timeout elapsed long
before all downstream calls finished) and still returns the full success
result — it does not fail with `AggregationTimeout`. -/
theorem C3_timeout_counterexample :
    1 < (load_admin_data_timed { auth := some (some demoAuth) }
          (timedOk 1 5) (timedOk 2 5) (timedOk 3 5) [0, 1, 2] 1).2 ∧
    (load_admin_data_timed { auth := some (some demoAuth) }
          (timedOk 1 5) (timedOk 2 5) (timedOk 3 5) [0, 1, 2] 1).1 =
      .ok { shipments := [1], distribution_centers := [2], retailers := [3] } ∧
    isAggTimeout (load_admin_data_timed { auth := some (some demoAuth) }
          (timedOk 1 5) (timedOk 2 5) (timedOk 3 5) [0, 1, 2] 1).1 = false := by
  exact ⟨by decide, rfl, rfl⟩

/-- C3 as amended: `load_admin_data` provides no timeout at all —
`pool.map(async_helper, erp_calls)` is invoked with no timeout argument, so
the outcome is independent of any caller-supplied bound, the run blocks
until the slowest worker completes (elapsed time is the maximum call
duration on the success path), and no execution ever fails with
`AggregationTimeout`. -/
theorem C3_no_timeout_amended {α : Type} (g : GObj)
    (fs fd fr : String → Except Err α × Nat) (sched : List Nat) (t₁ t₂ : Nat)
    (gs gd gr : String → Except Err α) :
    load_admin_data_timed g fs fd fr sched t₁ =
      load_admin_data_timed g fs fd fr sched t₂ ∧
    isAggTimeout (load_admin_data_timed g fs fd fr sched t₁).1 = false ∧
    isAggTimeout (load_admin_data g gs gd gr sched) = false := by
  refine ⟨rfl, ?_, ?_⟩
  · unfold load_admin_data_timed
    rcases g with ⟨_ | _ | auth⟩
    · rfl
    · rfl
    · dsimp only
      split
      · rfl
      · split <;> rfl
  · unfold load_admin_data
    rcases g with ⟨_ | _ | auth⟩
    · rfl
    · rfl
    · dsimp only
      split
      · rfl
      · split <;> rfl

/-- C4: for every session returned by `create_demo`, `get_demo_by_guid` on
its guid returns that session, and the session has exactly one initial user
whose role set contains exactly one role, named `supplychainmanager`. -/
theorem C4_seed_user_role (st : Store) :
    get_demo_by_guid (create_demo st).1 (create_demo st).2.guid =
      .ok (create_demo st).2 ∧
    (create_demo st).2.users.map (fun u => u.roles.map Role.name) =
      [["supplychainmanager"]] := by
  constructor
  · simp [create_demo, get_demo_by_guid, Store.findByGuid, List.find?]
  · simp [create_demo, seedUser, seedRole]

/-- C5: for a guid `g` that resolves to no session (no `create_demo`
produced it), `get_demo_by_guid` and `delete_demo_by_guid` both fail with
`ResourceDoesNotExistException`; and whenever a delete succeeds once, a
second delete of the same guid deterministically fails with
`ResourceDoesNotExistException` rather than silently succeeding. -/
theorem C5_unknown_guid_not_found (st st₁ st₂ : Store) (g : String)
    (habsent : st.findByGuid g = none)
    (hdel : delete_demo_by_guid st₁ g = .ok st₂) :
    get_demo_by_guid st g = .error (.resourceDoesNotExist ("demo not found: " ++ g)) ∧
    delete_demo_by_guid st g = .error (.resourceDoesNotExist ("demo not found: " ++ g)) ∧
    delete_demo_by_guid st₂ g = .error (.resourceDoesNotExist ("demo not found: " ++ g)) := by
  refine ⟨?_, ?_, ?_⟩
  · simp [get_demo_by_guid, habsent]
  · simp [delete_demo_by_guid, habsent]
  · unfold delete_demo_by_guid at hdel
    rcases hfind : st₁.findByGuid g with _ | s
    · rw [hfind] at hdel
      cases hdel
    · rw [hfind] at hdel
      simp only [Except.ok.injEq] at hdel
      subst hdel
      have hnone : Store.findByGuid
          { sessions := st₁.sessions.filter (fun s => s.guid != g),
            nextId := st₁.nextId } g = none :=
        find_filter_ne_guid st₁.sessions g
      simp [delete_demo_by_guid, hnone]

theorem C5_unknown_guid_not_found_witness :
    Store.findByGuid store0 "guid-0" = none ∧
    delete_demo_by_guid store1 "guid-0" = .ok { sessions := [], nextId := 1 } ∧
    (get_demo_by_guid store0 "guid-0" =
      .error (.resourceDoesNotExist ("demo not found: " ++ "guid-0")) ∧
    delete_demo_by_guid store0 "guid-0" =
      .error (.resourceDoesNotExist ("demo not found: " ++ "guid-0")) ∧
    delete_demo_by_guid { sessions := [], nextId := 1 } "guid-0" =
      .error (.resourceDoesNotExist ("demo not found: " ++ "guid-0"))) :=
  ⟨rfl, rfl,
   C5_unknown_guid_not_found store0 store1 { sessions := [], nextId := 1 } "guid-0" rfl rfl⟩

/-- C6: for every pair (guid, userId) belonging to an existing session,
`demo_login` succeeds and returns the token issued over the auth payload;
that token decodes back (`detokenize`, the decode used by `authenticate`) to
a payload whose `demoGuid` and `userId` equal the guid and userId given to
login, and `setup_auth_from_request` presented with that token establishes
the authenticated context (accepts it). -/
theorem C6_login_token_roundtrip (secret : Nat) (st : Store) (g uid : String)
    (s : DemoSession) (u : User)
    (hs : st.findByGuid g = some s)
    (hu : s.users.find? (fun v => v.id == uid) = some u) :
    (demo_login secret st g (some [("userId", uid)])).1 =
      .ok { token := tokenize secret (authRecord g u.id), status := 200,
            cookie_auth_token := some (tokenize secret (authRecord g u.id)) } ∧
    detokenize secret (tokenize secret (authRecord g u.id)) = .ok (authRecord g u.id) ∧
    (authRecord g u.id).demoGuid = g ∧
    (authRecord g u.id).userId = uid ∧
    (setup_auth_from_request secret (some (tokenize secret (authRecord g u.id)))).auth =
      some (some (authRecord g u.id)) := by
  have hid : u.id = uid := by
    have hpred := List.find?_some hu
    simpa using hpred
  refine ⟨?_, detokenize_tokenize secret _, rfl, hid, ?_⟩
  · have h1 : pyGet [("userId", uid)] "userId" = some uid := by
      simp [pyGet, List.find?]
    have h3 : user_login st g uid = .ok ⟨g, u.id, erpCredential g u.id, 0⟩ := by
      simp [user_login, hs, hu]
    simp [demo_login, h1, check_null_input, List.find?, h3, authRecord]
  · simp [setup_auth_from_request, detokenize_tokenize]

theorem C6_login_token_roundtrip_witness :
    Store.findByGuid store1 "guid-0" = some session1 ∧
    session1.users.find? (fun v => v.id == "user-guid-0") =
      some (seedUser "0" "guid-0") ∧
    ((demo_login 7 store1 "guid-0" (some [("userId", "user-guid-0")])).1 =
      .ok { token := tokenize 7 (authRecord "guid-0" (seedUser "0" "guid-0").id),
            status := 200,
            cookie_auth_token :=
              some (tokenize 7 (authRecord "guid-0" (seedUser "0" "guid-0").id)) } ∧
    detokenize 7 (tokenize 7 (authRecord "guid-0" (seedUser "0" "guid-0").id)) =
      .ok (authRecord "guid-0" (seedUser "0" "guid-0").id) ∧
    (authRecord "guid-0" (seedUser "0" "guid-0").id).demoGuid = "guid-0" ∧
    (authRecord "guid-0" (seedUser "0" "guid-0").id).userId = "user-guid-0" ∧
    (setup_auth_from_request 7
        (some (tokenize 7 (authRecord "guid-0" (seedUser "0" "guid-0").id)))).auth =
      some (some (authRecord "guid-0" (seedUser "0" "guid-0").id))) :=
  ⟨rfl, rfl,
   C6_login_token_roundtrip 7 store1 "guid-0" "user-guid-0" session1
     (seedUser "0" "guid-0") rfl rfl⟩

/-- C7 counterexample: when the request carries no token,
`setup_auth_from_request` never executes the assignment `g.auth = ...`
(the body only assigns under `if token is not None` or in the exception
handler), so `g.auth` is left unassigned — it is not set to the anonymous
`None` marker that the claim requires for the missing-token case. -/
theorem C7_missing_token_counterexample :
    (setup_auth_from_request 0 none).auth = none ∧
    (setup_auth_from_request 0 none).auth ≠ some Option.none := by
  exact ⟨rfl, by decide⟩

/-- C7 as amended: `setup_auth_from_request` stores the anonymous null
exactly when a token was present but failed to decode (malformed or bad
signature); when the token is missing it leaves `g.auth` unassigned rather
than null; a token that decodes but is expired is stored as authenticated at
decode time (not nulled), and the expiry surfaces as `AuthenticationFailed`
when a protected operation (the `/admin` route) is attempted. -/
theorem C7_auth_anonymous_amended (secret now : Nat) (t bad : TokenEnc)
    (d : AuthData) (e : Err)
    (hok : detokenize secret t = .ok d) (hexp : d.exp ≤ now)
    (hbad : detokenize secret bad = .error e)
    (fs fd fr : String → Except Err (List Nat)) (sched : List Nat) :
    (setup_auth_from_request secret none).auth = none ∧
    (setup_auth_from_request secret (some bad)).auth = some Option.none ∧
    (setup_auth_from_request secret (some t)).auth = some (some d) ∧
    admin_route now (setup_auth_from_request secret (some t)) fs fd fr sched =
      .error (.authenticationException "token expired") := by
  have hnlt : ¬ now < d.exp := Nat.not_lt.mpr hexp
  refine ⟨rfl, ?_, ?_, ?_⟩
  · simp [setup_auth_from_request, hbad]
  · simp [setup_auth_from_request, hok]
  · simp [admin_route, setup_auth_from_request, hok, logged_in, hnlt]

theorem C7_auth_anonymous_amended_witness :
    detokenize 0 (tokenize 0 demoAuth) = .ok demoAuth ∧
    demoAuth.exp ≤ FOURTEEN_DAYS ∧
    detokenize 0 (.malformed "garbage") = .error (.tokenException "malformed token") ∧
    ((setup_auth_from_request 0 none).auth = none ∧
    (setup_auth_from_request 0 (some (.malformed "garbage"))).auth = some Option.none ∧
    (setup_auth_from_request 0 (some (tokenize 0 demoAuth))).auth =
      some (some demoAuth) ∧
    admin_route FOURTEEN_DAYS (setup_auth_from_request 0 (some (tokenize 0 demoAuth)))
      (okCall 1) (okCall 2) (okCall 3) [0, 1, 2] =
      .error (.authenticationException "token expired")) :=
  ⟨rfl, Nat.le_refl _, rfl,
   C7_auth_anonymous_amended 0 FOURTEEN_DAYS (tokenize 0 demoAuth)
     (.malformed "garbage") demoAuth (.tokenException "malformed token")
     rfl (Nat.le_refl _) rfl (okCall 1) (okCall 2) (okCall 3) [0, 1, 2]⟩

/-- C8: the revocation of the embedded downstream credential
(`user_service.logout` on `g.auth['loopback_token']`) is performed exactly
when the token presented for logout equals the token bound to the caller's
established session context (the request's own token, decoded into `g.auth`
by the before-request hook); when the two tokens differ, logout performs no
revocation and still completes successfully with 204 (a no-op, not an
error). -/
theorem C8_logout_exact_token_match (secret : Nat) (t pathToken : TokenEnc)
    (d : AuthData) (hok : detokenize secret t = .ok d) :
    logout_request secret (some t) pathToken =
      .ok { revokedCredential := if pathToken = t then some d.loopback_token else none,
            status := 204 } := by
  unfold logout_request deauthenticate
  by_cases h : pathToken = t
  · subst h
    simp [setup_auth_from_request, hok]
  · have h2 : ¬ (some t = some pathToken) := by
      intro hc
      exact h (Option.some.inj hc).symm
    simp [h, h2]

theorem C8_logout_exact_token_match_witness :
    detokenize 0 (tokenize 0 demoAuth) = .ok demoAuth ∧
    logout_request 0 (some (tokenize 0 demoAuth)) (tokenize 0 demoAuth) =
      .ok { revokedCredential :=
              if tokenize 0 demoAuth = tokenize 0 demoAuth
              then some demoAuth.loopback_token else none,
            status := 204 } ∧
    logout_request 0 (some (tokenize 0 demoAuth)) (.malformed "other") =
      .ok { revokedCredential :=
              if TokenEnc.malformed "other" = tokenize 0 demoAuth
              then some demoAuth.loopback_token else none,
            status := 204 } :=
  ⟨rfl,
   C8_logout_exact_token_match 0 (tokenize 0 demoAuth) (tokenize 0 demoAuth) demoAuth rfl,
   C8_logout_exact_token_match 0 (tokenize 0 demoAuth) (.malformed "other") demoAuth rfl⟩

/-- C9 counterexample: a logout request presenting a malformed token does
not fail with `TokenInvalid`.  When the malformed token is the request's own
token, the before-request hook has set `g.auth = None` and the handler fails
with a plain `TypeError` (wrapped as a generic server error), and when the
request carries no matching token the handler succeeds as a 204 no-op;
in neither case is the decode failure propagated as `TokenException`. -/
theorem C9_malformed_logout_counterexample :
    logout_request 0 (some (.malformed "not-a-token")) (.malformed "not-a-token") =
      .error (.pythonError "TypeError: NoneType object is not subscriptable") ∧
    isTokenInvalid (logout_request 0 (some (.malformed "not-a-token"))
      (.malformed "not-a-token")) = false ∧
    logout_request 0 none (.malformed "not-a-token") =
      .ok { revokedCredential := none, status := 204 } := by
  exact ⟨rfl, rfl, rfl⟩

/-- C9 as amended: `deauthenticate` never decodes the presented token, so no
logout outcome is ever `TokenInvalid`.  For a presented token that does not
decode: if it equals the request's own token the operation fails with the
generic `TypeError` on the null session context (wrapped upstream as a
catch-all server error, not `TokenInvalid`); if it differs, the operation is
a successful 204 no-op with no revocation. -/
theorem C9_logout_no_token_invalid_amended (secret : Nat)
    (headerToken : Option TokenEnc) (pathToken : TokenEnc) (e : Err)
    (hbad : detokenize secret pathToken = .error e) :
    logout_request secret headerToken pathToken =
      (if headerToken = some pathToken
       then .error (.pythonError "TypeError: NoneType object is not subscriptable")
       else .ok { revokedCredential := none, status := 204 }) ∧
    isTokenInvalid (logout_request secret headerToken pathToken) = false := by
  have hmain : logout_request secret headerToken pathToken =
      (if headerToken = some pathToken
       then .error (.pythonError "TypeError: NoneType object is not subscriptable")
       else .ok { revokedCredential := none, status := 204 }) := by
    unfold logout_request deauthenticate
    by_cases h : headerToken = some pathToken
    · subst h
      simp [setup_auth_from_request, hbad]
    · simp [h]
  refine ⟨hmain, ?_⟩
  rw [hmain]
  by_cases h : headerToken = some pathToken <;> simp [h, isTokenInvalid]

theorem C9_logout_no_token_invalid_amended_witness :
    detokenize 0 (.malformed "not-a-token") = .error (.tokenException "malformed token") ∧
    (logout_request 0 (some (.malformed "not-a-token")) (.malformed "not-a-token") =
      (if some (TokenEnc.malformed "not-a-token") = some (TokenEnc.malformed "not-a-token")
       then .error (.pythonError "TypeError: NoneType object is not subscriptable")
       else .ok { revokedCredential := none, status := 204 }) ∧
    isTokenInvalid (logout_request 0 (some (.malformed "not-a-token"))
      (.malformed "not-a-token")) = false) :=
  ⟨rfl,
   C9_logout_no_token_invalid_amended 0 (some (.malformed "not-a-token"))
     (.malformed "not-a-token") (.tokenException "malformed token") rfl⟩

/-- C10: a login request whose body is absent or not a JSON object
(`request.get_json()` yields `None`) fails on `data.get('userId')` with an
`AttributeError` before the null-input validation runs and before any
Session Store or downstream call is made (empty call trace); the app-level
handler wraps it as the generic `APIException('Server Error', ...)`, not as
`UnprocessableEntity`. -/
theorem C10_login_null_body_server_error (secret : Nat) (st : Store) (g : String) :
    (demo_login secret st g none).1 =
      .error (.pythonError "AttributeError: NoneType object has no attribute get") ∧
    (demo_login secret st g none).2 = [] ∧
    handle (demo_login secret st g none).1 =
      .error (.apiError "Server Error"
        "AttributeError: NoneType object has no attribute get") ∧
    isUnprocessable (handle (demo_login secret st g none).1) = false := by
  exact ⟨rfl, rfl, rfl, rfl⟩

end LogisticsWizard
